import Mathlib

/-!
# Verification of the ESP-API game client (EnergetickaAkademie/ESP-API)

A shallow embedding of the core of `lib/ESPGameAPI/src/ESPGameAPI.cpp`,
`lib/ESPGameAPI/src/ESPGameAPI.h` and `lib/ESPGameAPI/include/AsyncRequest.hpp`:

* the binary protocol codec (byte-order helpers, the `poll_binary` decoder
  embedded in `ESPGameAPI::completeRequest` / `ESPGameAPI::pollCoefficients`,
  and the request-body encoders of `reportConnectedPowerPlants` /
  `reportConnectedConsumers`),
* the session state machine (`login`, `registerBoard`, the non-blocking
  request state machine `startHttpRequest` / `processRequest` /
  `completeRequest` / `abortRequest`, and the tick entry point
  `ESPGameAPI::update`),
* the bounded request queue of `AsyncRequest` (`fetch` and the worker loop).

Machine integers are modelled as `Nat` / `Int` with explicit `% 2 ^ 32`
where 32-bit overflow matters.  Bytes are `Nat` values, `< 256` for every
byte actually produced by the embedded encoders.  `float` power values
(watts) are represented by the signed 32-bit milliwatt integers that the
wire protocol actually transports; the final `/ 1000.0` float scaling on
ingress is outside the integer model.  JSON parsing of the login response
is abstracted as an oracle (`Option String`: the extracted token, if the
body parsed and had a `token` field).  Wall-clock `millis()` values are
`Nat`; the claims under study never exercise 32-bit timer wraparound.
-/

/-! ## Byte-order helpers (ESPGameAPI.cpp lines 16–37) -/

/-- `ESPGameAPI::hostToNetworkLong`: 32-bit byte swap,
`((x & 0xFF000000) >> 24) | ((x & 0x00FF0000) >> 8) |
 ((x & 0x0000FF00) << 8) | ((x & 0x000000FF) << 24)`. -/
def hostToNetworkLong (x : Nat) : Nat :=
  ((x &&& 0xFF000000) >>> 24) |||
  ((x &&& 0x00FF0000) >>> 8) |||
  ((x &&& 0x0000FF00) <<< 8) |||
  ((x &&& 0x000000FF) <<< 24)

/-- `ESPGameAPI::networkToHostLong` — same operation as the forward swap. -/
def networkToHostLong (x : Nat) : Nat :=
  hostToNetworkLong x

/-- Reinterpret an unsigned 32-bit value as the signed 32-bit integer the
C code obtains by casting `uint32_t` to `int32_t`. -/
def toInt32 (x : Nat) : Int :=
  if x < 2 ^ 31 then (x : Int) else (x : Int) - 2 ^ 32

/-- Two's-complement image of a signed value in an unsigned 32-bit word:
what `(uint32_t)(int32_t v)` stores. -/
def toUInt32bits (v : Int) : Nat :=
  (v % 2 ^ 32).toNat

/-- Read four consecutive bytes of a buffer as the ESP32 (little-endian)
`*(uint32_t*)(buf + off)` load. -/
def readLE32 (buf : List Nat) (off : Nat) : Nat :=
  buf.getD off 0 + 256 * buf.getD (off + 1) 0 +
    65536 * buf.getD (off + 2) 0 + 16777216 * buf.getD (off + 3) 0

/-- Store a 32-bit value as four little-endian bytes, as the ESP32
`*(uint32_t*)(data + off) = v` store does. -/
def storeLE32 (x : Nat) : List Nat :=
  [x % 256, x / 256 % 256, x / 65536 % 256, x / 16777216 % 256]

/-! ## Coefficient tables (ESPGameAPI.h lines 31–39, 140–142) -/

/-- `ProductionCoefficient`: `source_id` is a `uint8_t`; the source stores
`coefficient = (float)coeffRaw / 1000.0` — we keep the raw signed 32-bit
milliwatt value `coeffRaw`. -/
structure ProductionCoefficient where
  source_id : Nat
  coefficient_mw : Int
deriving DecidableEq, Repr

/-- `ConsumptionCoefficient`: `building_id` is a `uint8_t`; we keep the raw
signed 32-bit milliwatt value. -/
structure ConsumptionCoefficient where
  building_id : Nat
  consumption_mw : Int
deriving DecidableEq, Repr

/-- The observable poll output of the client: the two coefficient tables
plus `gameActive` (ESPGameAPI.h lines 140–142). -/
structure PollTables where
  productionCoefficients : List ProductionCoefficient
  consumptionCoefficients : List ConsumptionCoefficient
  gameActive : Bool
deriving DecidableEq, Repr

/-! ## The poll_binary decoder (ESPGameAPI.cpp lines 370–412 and 631–693) -/

/-- One iteration group of the production parsing loop: entry `i` reads
`buf[off + 5*i]` as the id and the following four bytes as the big-endian
milliwatt value via `networkToHostLong` on the little-endian load. -/
def parseProdEntries (buf : List Nat) : Nat → Nat → List ProductionCoefficient
  | _, 0 => []
  | off, count + 1 =>
      { source_id := buf.getD off 0,
        coefficient_mw := toInt32 (networkToHostLong (readLE32 buf (off + 1))) } ::
        parseProdEntries buf (off + 5) count

/-- The consumption parsing loop, same layout as production. -/
def parseConsEntries (buf : List Nat) : Nat → Nat → List ConsumptionCoefficient
  | _, 0 => []
  | off, count + 1 =>
      { building_id := buf.getD off 0,
        consumption_mw := toInt32 (networkToHostLong (readLE32 buf (off + 1))) } ::
        parseConsEntries buf (off + 5) count

/-- Decode outcome of one `poll_binary` body. -/
inductive PollResult where
  | ok
  | malformed
deriving DecidableEq, Repr

/-- The `poll_binary` decode, exactly as `ESPGameAPI::completeRequest`
(case `REQ_POLL_COEFFICIENTS`, lines 370–412) and the synchronous
`ESPGameAPI::pollCoefficients` (lines 631–693) perform it on a response
body of `len` bytes over the current tables:

* `len = 0`: success; `gameActive := false`, both tables cleared;
* `len = 1`: failure, state untouched;
* `len ≥ 2`: read `P = buf[0]`; if `len < 1 + 5P + 1` fail with state
  untouched; otherwise *clear and refill the production table*, read
  `C = buf[1 + 5P]`; if `len < 1 + 5P + 1 + 5C` fail — the production
  table keeps the freshly parsed entries, consumption and `gameActive`
  are untouched; otherwise refill consumption and set `gameActive`. -/
def pollBinaryDecode (body : List Nat) (st : PollTables) : PollResult × PollTables :=
  let len := body.length
  if len = 0 then
    (PollResult.ok, ⟨[], [], false⟩)
  else if len < 2 then
    (PollResult.malformed, st)
  else
    let prodCount := body.getD 0 0
    if len < 1 + prodCount * 5 + 1 then
      (PollResult.malformed, st)
    else
      let prods := parseProdEntries body 1 prodCount
      let consCount := body.getD (1 + prodCount * 5) 0
      if len < 1 + prodCount * 5 + 1 + consCount * 5 then
        (PollResult.malformed, { st with productionCoefficients := prods })
      else
        (PollResult.ok, ⟨prods, parseConsEntries body (1 + prodCount * 5 + 1) consCount, true⟩)

/-! ## The poll_binary encoder

Modelled from the spec: the server-side encoder of the `poll_binary`
response is not part of this repository; the spec's wire-format table
(§4.2) defines it as the concatenation `1 byte P`, `P × (u8 id, i32 mW
big-endian)`, `1 byte C`, `C × (u8 id, i32 mW big-endian)`. -/

/-- Big-endian bytes of a 32-bit value (network order). -/
def writeBE32 (x : Nat) : List Nat :=
  [x / 16777216 % 256, x / 65536 % 256, x / 256 % 256, x % 256]

/-- Modelled from the spec: one production entry on the wire,
`u8 source_id` then `i32 milliwatts` big-endian. -/
def encodeProdEntry (e : ProductionCoefficient) : List Nat :=
  e.source_id :: writeBE32 (toUInt32bits e.coefficient_mw)

/-- Modelled from the spec: one consumption entry on the wire. -/
def encodeConsEntry (e : ConsumptionCoefficient) : List Nat :=
  e.building_id :: writeBE32 (toUInt32bits e.consumption_mw)

/-- Modelled from the spec: a whole `poll_binary` body for the given
tables; each count is transmitted as one byte. -/
def pollBinaryEncode (prods : List ProductionCoefficient)
    (cons : List ConsumptionCoefficient) : List Nat :=
  prods.length % 256 :: (prods.flatMap encodeProdEntry ++
    (cons.length % 256 :: cons.flatMap encodeConsEntry))

/-! ## Reporting-body encoders (ESPGameAPI.cpp lines 734–796, 560–603) -/

/-- `ConnectedPowerPlant` (ESPGameAPI.h lines 42–45): `plant_id` is a
`uint32_t`; `set_power` is a float in watts, transmitted as
`(int32_t)(set_power * 1000)` — we carry that milliwatt integer. -/
structure ConnectedPowerPlant where
  plant_id : Nat
  set_power_mw : Int
deriving DecidableEq, Repr

/-- `ConnectedConsumer` (ESPGameAPI.h lines 48–50). -/
structure ConnectedConsumer where
  consumer_id : Nat
deriving DecidableEq, Repr

/-- Request body built by `ESPGameAPI::reportConnectedPowerPlants`
(lines 734–764) and `reportConnectedPowerPlantsAsync` (lines 560–581):
`data[0] = (uint8_t)plants.size()`, then for each plant the little-endian
store of `hostToNetworkLong(plant_id)` and of
`hostToNetworkLong((int32_t)(set_power * 1000))` — 8 bytes per entry. -/
def reportConnectedPowerPlantsBody (plants : List ConnectedPowerPlant) : List Nat :=
  (plants.length % 256) ::
    plants.flatMap (fun p =>
      storeLE32 (hostToNetworkLong (p.plant_id % 2 ^ 32)) ++
        storeLE32 (hostToNetworkLong (toUInt32bits p.set_power_mw)))

/-- Request body built by `ESPGameAPI::reportConnectedConsumers`
(lines 767–796) and `reportConnectedConsumersAsync` (lines 583–603):
`data[0] = (uint8_t)consumers.size()`, then the little-endian store of
`hostToNetworkLong(consumer_id)` — 4 bytes per entry. -/
def reportConnectedConsumersBody (consumers : List ConnectedConsumer) : List Nat :=
  (consumers.length % 256) ::
    consumers.flatMap (fun c => storeLE32 (hostToNetworkLong (c.consumer_id % 2 ^ 32)))

/-! ## Session and non-blocking request state machine
(ESPGameAPI.h lines 104–144, ESPGameAPI.cpp lines 51–108, 183–457, 460–603, 799–865) -/

/-- `RequestState` (ESPGameAPI.h lines 83–89). -/
inductive RequestState where
  | REQ_IDLE
  | REQ_PENDING
  | REQ_PROCESSING
  | REQ_COMPLETED
  | REQ_ERROR
deriving DecidableEq, Repr

/-- `RequestType` (ESPGameAPI.h lines 92–102). -/
inductive RequestType where
  | REQ_NONE
  | REQ_LOGIN
  | REQ_REGISTER
  | REQ_POLL_COEFFICIENTS
  | REQ_SUBMIT_POWER
  | REQ_PROD_VALUES
  | REQ_CONS_VALUES
  | REQ_REPORT_PLANTS
  | REQ_REPORT_CONSUMERS
deriving DecidableEq, Repr

/-- What the HTTP layer yields when `processRequest` drives a pending
request on one tick: still waiting (`httpCode` 0 or a non-definitive
negative), a definitive response with its code and body, or a connection
error (`HTTPC_ERROR_CONNECTION_REFUSED` / send failures).  `loginToken`
abstracts `deserializeJson` + `responseDoc["token"]` applied to the same
body: the token string, when the body parses and carries one. -/
inductive NetEvent where
  | netWaiting
  | netResponse (httpCode : Nat) (body : List Nat) (loginToken : Option String)
  | netConnError
deriving DecidableEq, Repr

/-- The mutable fields of class `ESPGameAPI` used by the claims.  The four
provider callbacks are modelled by the values they would return (`none` =
callback not set); request payload bytes are determined by
`currentRequestType` for every request the orchestrator starts, so they
are not duplicated here. -/
structure ApiState where
  username : String
  password : String
  token : String
  isLoggedIn : Bool
  isRegistered : Bool
  lastUpdateTime : Nat
  updateInterval : Nat
  lastPollTime : Nat
  pollInterval : Nat
  currentRequestState : RequestState
  currentRequestType : RequestType
  requestStartTime : Nat
  requestTimeout : Nat
  responseBuffer : List Nat
  responseLoginToken : Option String
  productionCoefficients : List ProductionCoefficient
  consumptionCoefficients : List ConsumptionCoefficient
  gameActive : Bool
  productionCallback : Option Int
  consumptionCallback : Option Int
  powerPlantsCallback : Option (List ConnectedPowerPlant)
  consumersCallback : Option (List ConnectedConsumer)
deriving DecidableEq, Repr

/-- The constructor `ESPGameAPI::ESPGameAPI` (lines 4–13) with its default
interval arguments (ESPGameAPI.h lines 173–175). -/
def mkESPGameAPI (updateIntervalMs pollIntervalMs requestTimeoutMs : Nat) : ApiState :=
  { username := "", password := "", token := "",
    isLoggedIn := false, isRegistered := false,
    lastUpdateTime := 0, updateInterval := updateIntervalMs,
    lastPollTime := 0, pollInterval := pollIntervalMs,
    currentRequestState := RequestState.REQ_IDLE,
    currentRequestType := RequestType.REQ_NONE,
    requestStartTime := 0, requestTimeout := requestTimeoutMs,
    responseBuffer := [], responseLoginToken := none,
    productionCoefficients := [], consumptionCoefficients := [],
    gameActive := false,
    productionCallback := none, consumptionCallback := none,
    powerPlantsCallback := none, consumersCallback := none }

/-- `ESPGameAPI::isConnected` (ESPGameAPI.h line 222):
`WiFi.status() == WL_CONNECTED && isLoggedIn && isRegistered`; the Wi-Fi
link status is an environment input. -/
def isConnected (wifi : Bool) (st : ApiState) : Bool :=
  wifi && st.isLoggedIn && st.isRegistered

/-- `ESPGameAPI::startHttpRequest` (lines 183–230): refuses when a request
is pending or (except for login) when not logged in; otherwise records the
request and moves to `REQ_PENDING`. -/
def startHttpRequest (st : ApiState) (rt : RequestType) (now : Nat) : ApiState × Bool :=
  if st.currentRequestState ≠ RequestState.REQ_IDLE then (st, false)
  else if st.isLoggedIn = false ∧ rt ≠ RequestType.REQ_LOGIN then (st, false)
  else ({ st with currentRequestState := RequestState.REQ_PENDING,
                  currentRequestType := rt, requestStartTime := now }, true)

/-- `ESPGameAPI::startHttpGetRequest` (lines 232–260). -/
def startHttpGetRequest (st : ApiState) (rt : RequestType) (now : Nat) : ApiState × Bool :=
  if st.currentRequestState ≠ RequestState.REQ_IDLE then (st, false)
  else if st.isLoggedIn = false then (st, false)
  else ({ st with currentRequestState := RequestState.REQ_PENDING,
                  currentRequestType := rt, requestStartTime := now }, true)

/-- `ESPGameAPI::abortRequest` (lines 444–457). -/
def abortRequest (st : ApiState) : ApiState :=
  { st with currentRequestState := RequestState.REQ_IDLE,
            currentRequestType := RequestType.REQ_NONE }

/-- `ESPGameAPI::processRequest` (lines 262–319): timeout aborts; a
pending request consumes the HTTP layer's outcome; a definitive 200 stores
the body (capped to the 1000-byte `responseBuffer`) and reaches
`REQ_COMPLETED`; non-200 and connection errors reach `REQ_ERROR`.
Returns `currentRequestState != REQ_ERROR`. -/
def processRequest (st : ApiState) (now : Nat) (ev : NetEvent) : ApiState × Bool :=
  if st.currentRequestState = RequestState.REQ_IDLE then (st, true)
  else if st.requestTimeout < now - st.requestStartTime then (abortRequest st, false)
  else if st.currentRequestState = RequestState.REQ_PENDING then
    match ev with
    | NetEvent.netWaiting => (st, true)
    | NetEvent.netConnError => ({ st with currentRequestState := RequestState.REQ_ERROR }, false)
    | NetEvent.netResponse code body tok =>
        if code = 200 then
          ({ st with currentRequestState := RequestState.REQ_COMPLETED,
                     responseBuffer := body.take 1000,
                     responseLoginToken := tok }, true)
        else ({ st with currentRequestState := RequestState.REQ_ERROR }, false)
  else (st, st.currentRequestState ≠ RequestState.REQ_ERROR)

/-- `ESPGameAPI::completeRequest` (lines 321–442): dispatch on the request
type, then reset to `REQ_IDLE` / `REQ_NONE`. -/
def completeRequest (st : ApiState) : ApiState :=
  if st.currentRequestState ≠ RequestState.REQ_COMPLETED then st
  else
    let st1 :=
      match st.currentRequestType with
      | RequestType.REQ_LOGIN =>
          if 0 < st.responseBuffer.length then
            match st.responseLoginToken with
            | some tok => { st with token := tok, isLoggedIn := true }
            | none => st
          else st
      | RequestType.REQ_REGISTER =>
          if 2 ≤ st.responseBuffer.length ∧ st.responseBuffer.getD 0 0 = 1 then
            { st with isRegistered := true }
          else st
      | RequestType.REQ_POLL_COEFFICIENTS =>
          let r := pollBinaryDecode st.responseBuffer
            ⟨st.productionCoefficients, st.consumptionCoefficients, st.gameActive⟩
          { st with productionCoefficients := r.2.productionCoefficients,
                    consumptionCoefficients := r.2.consumptionCoefficients,
                    gameActive := r.2.gameActive }
      | _ => st
    { st1 with currentRequestState := RequestState.REQ_IDLE,
               currentRequestType := RequestType.REQ_NONE }

/-- `ESPGameAPI::loginAsync` (lines 511–526). -/
def loginAsync (st : ApiState) (user pass : String) (now : Nat) : ApiState × Bool :=
  startHttpRequest { st with username := user, password := pass }
    RequestType.REQ_LOGIN now

/-- `ESPGameAPI::registerBoardAsync` (lines 528–536). -/
def registerBoardAsync (st : ApiState) (now : Nat) : ApiState × Bool :=
  if st.isLoggedIn = false then (st, false)
  else startHttpRequest st RequestType.REQ_REGISTER now

/-- `ESPGameAPI::pollCoefficientsAsync` (lines 538–545). -/
def pollCoefficientsAsync (st : ApiState) (now : Nat) : ApiState × Bool :=
  if st.isRegistered = false then (st, false)
  else startHttpGetRequest st RequestType.REQ_POLL_COEFFICIENTS now

/-- `ESPGameAPI::submitPowerDataAsync` (lines 547–558). -/
def submitPowerDataAsync (st : ApiState) (now : Nat) : ApiState × Bool :=
  if st.isRegistered = false then (st, false)
  else startHttpRequest st RequestType.REQ_SUBMIT_POWER now

/-- `ESPGameAPI::reportConnectedPowerPlantsAsync` (lines 560–581). -/
def reportConnectedPowerPlantsAsync (st : ApiState) (now : Nat) : ApiState × Bool :=
  if st.isRegistered = false then (st, false)
  else startHttpRequest st RequestType.REQ_REPORT_PLANTS now

/-- `ESPGameAPI::reportConnectedConsumersAsync` (lines 583–603). -/
def reportConnectedConsumersAsync (st : ApiState) (now : Nat) : ApiState × Bool :=
  if st.isRegistered = false then (st, false)
  else startHttpRequest st RequestType.REQ_REPORT_CONSUMERS now

/-- Third step of the reporting branch of `ESPGameAPI::update`
(lines 854–861): `post_vals` only when both power providers are set. -/
def tryReportPower (st : ApiState) (now : Nat) (requestProcessed : Bool) :
    ApiState × Bool × Option RequestType :=
  if st.productionCallback.isSome ∧ st.consumptionCallback.isSome then
    let r := submitPowerDataAsync st now
    if r.2 then (r.1, true, some RequestType.REQ_SUBMIT_POWER)
    else (r.1, requestProcessed, none)
  else (st, requestProcessed, none)

/-- Second step of the reporting branch of `ESPGameAPI::update`
(lines 847–852). -/
def tryReportConsumers (st : ApiState) (now : Nat) (requestProcessed : Bool) :
    ApiState × Bool × Option RequestType :=
  if st.consumersCallback.isSome then
    let r := reportConnectedConsumersAsync st now
    if r.2 then (r.1, true, some RequestType.REQ_REPORT_CONSUMERS)
    else tryReportPower r.1 now requestProcessed
  else tryReportPower st now requestProcessed

/-- First step of the reporting branch of `ESPGameAPI::update`
(lines 840–845). -/
def tryReportPlants (st : ApiState) (now : Nat) (requestProcessed : Bool) :
    ApiState × Bool × Option RequestType :=
  if st.powerPlantsCallback.isSome then
    let r := reportConnectedPowerPlantsAsync st now
    if r.2 then (r.1, true, some RequestType.REQ_REPORT_PLANTS)
    else tryReportConsumers r.1 now requestProcessed
  else tryReportConsumers st now requestProcessed

/-- Reporting branch of `ESPGameAPI::update` (lines 836–862): guarded by
`gameActive` and the report deadline; `lastUpdateTime` is reset before any
submission is attempted. -/
def reportPhase (st : ApiState) (now : Nat) (requestProcessed : Bool) :
    ApiState × Bool × Option RequestType :=
  if st.gameActive = true ∧ st.updateInterval ≤ now - st.lastUpdateTime then
    tryReportPlants { st with lastUpdateTime := now } now requestProcessed
  else (st, requestProcessed, none)

/-- Polling branch of `ESPGameAPI::update` (lines 827–833): on the poll
deadline, reset `lastPollTime` and submit the poll; return `true` when it
started, otherwise fall through to the reporting branch. -/
def pollPhase (st : ApiState) (now : Nat) (requestProcessed : Bool) :
    ApiState × Bool × Option RequestType :=
  if st.pollInterval ≤ now - st.lastPollTime then
    let r := pollCoefficientsAsync { st with lastPollTime := now } now
    if r.2 then (r.1, true, some RequestType.REQ_POLL_COEFFICIENTS)
    else reportPhase r.1 now requestProcessed
  else reportPhase st now requestProcessed

/-- `ESPGameAPI::update` (lines 799–865), the tick entry point.  Besides
the successor state it returns the function's boolean result and the
request submitted on this tick, if any (this revision starts at most one
request per tick). -/
def update (st : ApiState) (now : Nat) (wifi : Bool) (ev : NetEvent) :
    ApiState × Bool × Option RequestType :=
  if isConnected wifi st = false then (st, false, none)
  else
    let p :=
      if st.currentRequestState ≠ RequestState.REQ_IDLE then
        let r := processRequest st now ev
        if r.2 then
          if r.1.currentRequestState = RequestState.REQ_COMPLETED then
            (completeRequest r.1, true)
          else (r.1, false)
        else (abortRequest r.1, false)
      else (st, false)
    if p.1.currentRequestState ≠ RequestState.REQ_IDLE then (p.1, p.2, none)
    else pollPhase p.1 now p.2

/-- Blocking `ESPGameAPI::login` (lines 51–108): stores the credentials,
then on HTTP 200 with a parsable token stores it and sets `isLoggedIn`. -/
def login (st : ApiState) (user pass : String) (httpCode : Nat)
    (loginTok : Option String) : ApiState × Bool :=
  let st1 := { st with username := user, password := pass }
  if httpCode = 200 then
    match loginTok with
    | some tok => ({ st1 with token := tok, isLoggedIn := true }, true)
    | none => (st1, false)
  else (st1, false)

/-- Blocking `ESPGameAPI::registerBoard` (lines 460–508): requires
`isLoggedIn`; a 200 response of at least two bytes whose first byte is
`0x01` sets `isRegistered`.  `reqOk` is `makeHttpRequest` succeeding with
HTTP 200. -/
def registerBoard (st : ApiState) (reqOk : Bool) (body : List Nat) : ApiState × Bool :=
  if st.isLoggedIn = false then (st, false)
  else if reqOk then
    if 2 ≤ body.length then
      if body.getD 0 0 = 1 then ({ st with isRegistered := true }, true)
      else (st, false)
    else (st, false)
  else (st, false)

/-- Blocking `ESPGameAPI::pollCoefficients` (lines 631–693): requires
`isRegistered` (and `isLoggedIn` inside `makeHttpGetRequest`); on success
applies the `poll_binary` decode to the current tables. -/
def pollCoefficientsSync (st : ApiState) (reqOk : Bool) (body : List Nat) :
    ApiState × Bool :=
  if st.isRegistered = false then (st, false)
  else if st.isLoggedIn = false then (st, false)
  else if reqOk then
    let r := pollBinaryDecode body
      ⟨st.productionCoefficients, st.consumptionCoefficients, st.gameActive⟩
    ({ st with productionCoefficients := r.2.productionCoefficients,
               consumptionCoefficients := r.2.consumptionCoefficients,
               gameActive := r.2.gameActive }, r.1 = PollResult.ok)
  else (st, false)

/-- Blocking `ESPGameAPI::reportConnectedPowerPlants` (lines 734–764):
touches no session state. -/
def reportConnectedPowerPlantsSync (st : ApiState) (reqOk : Bool) : ApiState × Bool :=
  if st.isRegistered = false then (st, false) else (st, reqOk)

/-- Blocking `ESPGameAPI::reportConnectedConsumers` (lines 767–796). -/
def reportConnectedConsumersSync (st : ApiState) (reqOk : Bool) : ApiState × Bool :=
  if st.isRegistered = false then (st, false) else (st, reqOk)

/-- The public operations a host can drive the client session with (the
login / register / poll / report / tick surface of the class). -/
inductive ApiOp where
  | opLogin (user pass : String) (httpCode : Nat) (loginTok : Option String)
  | opLoginAsync (user pass : String) (now : Nat)
  | opRegister (reqOk : Bool) (body : List Nat)
  | opRegisterAsync (now : Nat)
  | opPoll (reqOk : Bool) (body : List Nat)
  | opPollAsync (now : Nat)
  | opReportPlants (reqOk : Bool)
  | opReportConsumers (reqOk : Bool)
  | opUpdate (now : Nat) (wifi : Bool) (ev : NetEvent)
deriving DecidableEq, Repr

/-- Effect of one public operation on the session state. -/
def applyOp (st : ApiState) : ApiOp → ApiState
  | ApiOp.opLogin u p c t => (login st u p c t).1
  | ApiOp.opLoginAsync u p now => (loginAsync st u p now).1
  | ApiOp.opRegister ok body => (registerBoard st ok body).1
  | ApiOp.opRegisterAsync now => (registerBoardAsync st now).1
  | ApiOp.opPoll ok body => (pollCoefficientsSync st ok body).1
  | ApiOp.opPollAsync now => (pollCoefficientsAsync st now).1
  | ApiOp.opReportPlants ok => (reportConnectedPowerPlantsSync st ok).1
  | ApiOp.opReportConsumers ok => (reportConnectedConsumersSync st ok).1
  | ApiOp.opUpdate now wifi ev => (update st now wifi ev).1

/-- The state after running a sequence of operations from a freshly
constructed client. -/
def runOps (ops : List ApiOp) : ApiState :=
  ops.foldl applyOp (mkESPGameAPI 3000 5000 10000)

/-! ## The bounded request queue (AsyncRequest.hpp lines 46–256)

`AsyncRequest::fetch` enqueues an owning request record onto a FIFO queue
of capacity `ASYNCREQUEST_QUEUE_LEN`; when `xQueueSend` fails the callback
fires immediately with the distinguished `queue_full` error and the record
is deleted.  Each worker iteration dequeues one record, performs the HTTP
exchange, and calls `finish_`, which invokes the callback exactly once
before the record is deleted.  We track each request by an identifier and
record every callback invocation in an event log; the HTTP outcome payload
is irrelevant to the claims and omitted. -/

/-- One submitted request: its identity and whether a completion callback
was supplied (`fetch`'s `cb` may be null, guarded by `if (cb)`). -/
structure HttpJob where
  id : Nat
  hasCb : Bool
deriving DecidableEq, Repr

/-- One callback invocation: either the synchronous rejection with the
`queue_full` error (`ESP_FAIL`, status −1, body `"queue_full"`) or the
worker's completion callback from `finish_`. -/
inductive CbEvent where
  | cbQueueFull (id : Nat)
  | cbDone (id : Nat)
deriving DecidableEq, Repr

/-- `ASYNCREQUEST_QUEUE_LEN` (AsyncRequest.hpp line 19). -/
def ASYNCREQUEST_QUEUE_LEN : Nat := 12

/-- The engine: the FIFO queue contents plus the log of every callback
invocation so far. -/
structure EngineState where
  queue : List HttpJob
  log : List CbEvent
deriving DecidableEq, Repr

/-- `AsyncRequest::fetch` (AsyncRequest.hpp lines 64–86): enqueue when the
queue has room; otherwise fire the callback synchronously with the
`queue_full` error and drop the record. -/
def fetch (s : EngineState) (j : HttpJob) : EngineState :=
  if s.queue.length < ASYNCREQUEST_QUEUE_LEN then
    { s with queue := s.queue ++ [j] }
  else
    { s with log := s.log ++ if j.hasCb then [CbEvent.cbQueueFull j.id] else [] }

/-- One iteration of `AsyncRequest::worker_` (AsyncRequest.hpp lines
160–251): dequeue one record, perform the request, call `finish_` (lines
253–255) which invokes the callback exactly once, delete the record. -/
def workerStep (s : EngineState) : EngineState :=
  match s.queue with
  | [] => s
  | j :: rest =>
      { queue := rest, log := s.log ++ if j.hasCb then [CbEvent.cbDone j.id] else [] }

/-- Interleaved engine activity: submissions from the orchestrator and
worker iterations. -/
inductive EngineOp where
  | opFetch (j : HttpJob)
  | opWork
deriving DecidableEq, Repr

/-- Apply one engine operation. -/
def engineStep (s : EngineState) : EngineOp → EngineState
  | EngineOp.opFetch j => fetch s j
  | EngineOp.opWork => workerStep s

/-- Run a sequence of engine operations. -/
def runEngine (s : EngineState) (ops : List EngineOp) : EngineState :=
  ops.foldl engineStep s

/-- The engine before any submission: empty queue, no callbacks fired. -/
def engineInit : EngineState :=
  { queue := [], log := [] }

/-- Identifier carried by a callback event. -/
def cbEventId : CbEvent → Nat
  | CbEvent.cbQueueFull i => i
  | CbEvent.cbDone i => i

/-- How many callbacks have fired for request id `i`. -/
def cbCount (log : List CbEvent) (i : Nat) : Nat :=
  log.countP (fun e => cbEventId e == i)

/-- How many callback-bearing copies of id `i` sit in the queue. -/
def queueCount (q : List HttpJob) (i : Nat) : Nat :=
  q.countP (fun j => j.hasCb && j.id == i)

/-- How many callback-bearing submissions of id `i` a sequence contains. -/
def fetchCbCount (ops : List EngineOp) (i : Nat) : Nat :=
  ops.countP (fun op =>
    match op with
    | EngineOp.opFetch j => j.hasCb && j.id == i
    | EngineOp.opWork => false)

/-- Run the worker until the queue is empty (`n` iterations suffice for a
queue of length `n`). -/
def drainN : Nat → EngineState → EngineState
  | 0, s => s
  | n + 1, s => drainN n (workerStep s)

/-- Drain the current queue completely. -/
def drain (s : EngineState) : EngineState :=
  drainN s.queue.length s

/-- A concrete logged-in, registered, game-active client with all four
provider callbacks set, no pending request, a freshly satisfied poll
deadline (`lastPollTime = 100` with a long interval) and an overdue
report deadline (`lastUpdateTime = 0`, interval 50 ms). -/
def fixtureState : ApiState :=
  { username := "u", password := "p", token := "tok123",
    isLoggedIn := true, isRegistered := true,
    lastUpdateTime := 0, updateInterval := 50,
    lastPollTime := 100, pollInterval := 1000000,
    currentRequestState := RequestState.REQ_IDLE,
    currentRequestType := RequestType.REQ_NONE,
    requestStartTime := 0, requestTimeout := 10000,
    responseBuffer := [], responseLoginToken := none,
    productionCoefficients := [⟨10, 500⟩],
    consumptionCoefficients := [⟨5, 200⟩],
    gameActive := true,
    productionCallback := some 100, consumptionCallback := some 60,
    powerPlantsCallback := some [⟨1, 1000⟩], consumersCallback := some [⟨2⟩] }

/-- `fixtureState` with its poll deadline already passed
(`lastPollTime = 0`, `pollInterval = 10`, observed at `now = 100`). -/
def pollDueState : ApiState :=
  { fixtureState with lastPollTime := 0, pollInterval := 10 }

/-! ## Arithmetic characterisation of the byte swap -/

/-- Masking with a shifted all-ones byte mask extracts a digit block:
`x &&& ((2^j − 1) · 2^k) = (x / 2^k mod 2^j) · 2^k`. -/
theorem and_mask_shifted (x k j : Nat) :
    x &&& ((2 ^ j - 1) * 2 ^ k) = x / 2 ^ k % 2 ^ j * 2 ^ k := by
  have h1 : (2 ^ j - 1) * 2 ^ k = (2 ^ j - 1) <<< k := (Nat.shiftLeft_eq _ _).symm
  have h2 : x / 2 ^ k % 2 ^ j * 2 ^ k = (x >>> k % 2 ^ j) <<< k := by
    rw [Nat.shiftLeft_eq, Nat.shiftRight_eq_div_pow]
  rw [h1, h2]
  apply Nat.eq_of_testBit_eq
  intro i
  simp only [Nat.testBit_and, Nat.testBit_shiftLeft, Nat.testBit_two_pow_sub_one,
    Nat.testBit_mod_two_pow, Nat.testBit_shiftRight]
  by_cases h : k ≤ i
  · have hik : k + (i - k) = i := by omega
    simp [ge_iff_le, h, hik, Bool.and_comm]
  · simp [ge_iff_le, h]

/-- Bitwise or of values occupying disjoint binary digit ranges is
addition. -/
theorem or_disjoint_add {p a b : Nat} (h : b < p) (hp : ∃ i, p = 2 ^ i) :
    (p * a) ||| b = p * a + b := by
  obtain ⟨i, rfl⟩ := hp
  exact (Nat.mul_add_lt_is_or h a).symm

/-- The source's shift-and-mask byte swap, characterised arithmetically:
it reverses the four base-256 digits of its argument. -/
theorem hostToNetworkLong_eq (x : Nat) :
    hostToNetworkLong x =
      x / 16777216 % 256 + x / 65536 % 256 * 256 +
        x / 256 % 256 * 65536 + x % 256 * 16777216 := by
  have m24 : x &&& 0xFF000000 = x / 16777216 % 256 * 16777216 := by
    have := and_mask_shifted x 24 8; norm_num at this ⊢; exact this
  have m16 : x &&& 0x00FF0000 = x / 65536 % 256 * 65536 := by
    have := and_mask_shifted x 16 8; norm_num at this ⊢; exact this
  have m8 : x &&& 0x0000FF00 = x / 256 % 256 * 256 := by
    have := and_mask_shifted x 8 8; norm_num at this ⊢; exact this
  have m0 : x &&& 0x000000FF = x % 256 := by
    have := and_mask_shifted x 0 8; norm_num at this ⊢; exact this
  have ha : x / 16777216 % 256 < 256 := Nat.mod_lt _ (by norm_num)
  have hb : x / 65536 % 256 < 256 := Nat.mod_lt _ (by norm_num)
  have hc : x / 256 % 256 < 256 := Nat.mod_lt _ (by norm_num)
  unfold hostToNetworkLong
  rw [m24, m16, m8, m0, Nat.shiftRight_eq_div_pow, Nat.shiftRight_eq_div_pow,
    Nat.shiftLeft_eq, Nat.shiftLeft_eq]
  norm_num
  have e16 : x / 65536 % 256 * 65536 / 256 = x / 65536 % 256 * 256 := by omega
  rw [e16]
  rw [show x / 16777216 % 256 ||| x / 65536 % 256 * 256 =
      256 * (x / 65536 % 256) ||| x / 16777216 % 256 by
    rw [Nat.or_comm, Nat.mul_comm]]
  rw [or_disjoint_add ha ⟨8, by norm_num⟩]
  rw [show 256 * (x / 65536 % 256) + x / 16777216 % 256 ||| x / 256 % 256 * 256 * 256 =
      65536 * (x / 256 % 256) ||| (256 * (x / 65536 % 256) + x / 16777216 % 256) by
    rw [Nat.or_comm]; ring_nf]
  rw [or_disjoint_add (by omega) ⟨16, by norm_num⟩]
  rw [show 65536 * (x / 256 % 256) + (256 * (x / 65536 % 256) + x / 16777216 % 256) |||
        x % 256 * 16777216 =
      16777216 * (x % 256) ||| (65536 * (x / 256 % 256) + (256 * (x / 65536 % 256) +
        x / 16777216 % 256)) by
    rw [Nat.or_comm, Nat.mul_comm]]
  rw [or_disjoint_add (by omega) ⟨24, by norm_num⟩]
  omega

/-! ## Basic decoder lemmas -/

/-- The production parsing loop yields exactly `count` entries. -/
theorem parseProdEntries_length (buf : List Nat) :
    ∀ count off, (parseProdEntries buf off count).length = count := by
  intro count
  induction count with
  | zero => intro off; rfl
  | succ n ih => intro off; simp [parseProdEntries, ih]

/-- The consumption parsing loop yields exactly `count` entries. -/
theorem parseConsEntries_length (buf : List Nat) :
    ∀ count off, (parseConsEntries buf off count).length = count := by
  intro count
  induction count with
  | zero => intro off; rfl
  | succ n ih => intro off; simp [parseConsEntries, ih]

/-- Claim C5 (confirmed): a `poll_binary` body of length 0 decodes
successfully (it is not malformed), sets `gameActive := false` and clears
both coefficient tables. -/
theorem poll_empty_body_pauses (body : List Nat) (st : PollTables)
    (h : body.length = 0) :
    pollBinaryDecode body st = (PollResult.ok, ⟨[], [], false⟩) := by
  unfold pollBinaryDecode
  simp [h]

/-- Witness for C5 at the empty body over a non-trivial prior state. -/
theorem poll_empty_body_pauses_witness :
    ([] : List Nat).length = 0 ∧
      pollBinaryDecode [] ⟨[⟨7, 300⟩], [⟨2, 100⟩], true⟩ =
        (PollResult.ok, ⟨[], [], false⟩) :=
  ⟨by decide, poll_empty_body_pauses [] ⟨[⟨7, 300⟩], [⟨2, 100⟩], true⟩ (by decide)⟩

/-- Counterexample to claim C3 as stated: the length-7 body
`[1, 0, 0, 0, 0, 0, 2]` (P = 1, C = 2) violates `len ≥ 1 + 5P + 1 + 5C`
(7 < 17) and decodes as malformed, yet the production table is *not* left
as it was: it is replaced by the parsed production entry. -/
theorem poll_malformed_clobbers_production :
    (pollBinaryDecode [1, 0, 0, 0, 0, 0, 2] ⟨[⟨5, 1⟩], [], false⟩).1 =
        PollResult.malformed ∧
      1 ≤ ([1, 0, 0, 0, 0, 0, 2] : List Nat).length ∧
      ([1, 0, 0, 0, 0, 0, 2] : List Nat).length <
        1 + 5 * 1 + 1 + 5 * 2 ∧
      (pollBinaryDecode [1, 0, 0, 0, 0, 0, 2] ⟨[⟨5, 1⟩], [], false⟩).2.productionCoefficients ≠
        [⟨5, 1⟩] := by
  decide

/-- Claim C3 (corrected): a body of length ≥ 1 violating
`len ≥ 1 + 5P + 1 + 5C` decodes as malformed with the consumption table
and `gameActive` untouched; the whole state is untouched when even the
production region does not fit (`len < 1 + 5P + 1`), but when the
production region fits and only the consumption region is short, the
production table has already been cleared and refilled with the `P`
parsed entries. -/
theorem poll_malformed_partial_update (body : List Nat) (st : PollTables)
    (h1 : 1 ≤ body.length)
    (hviol : body.length <
      1 + body.getD 0 0 * 5 + 1 + body.getD (1 + body.getD 0 0 * 5) 0 * 5) :
    (pollBinaryDecode body st).1 = PollResult.malformed ∧
      (pollBinaryDecode body st).2.consumptionCoefficients =
        st.consumptionCoefficients ∧
      (pollBinaryDecode body st).2.gameActive = st.gameActive ∧
      (body.length < 1 + body.getD 0 0 * 5 + 1 →
        (pollBinaryDecode body st).2 = st) ∧
      (1 + body.getD 0 0 * 5 + 1 ≤ body.length →
        (pollBinaryDecode body st).2.productionCoefficients =
          parseProdEntries body 1 (body.getD 0 0)) := by
  unfold pollBinaryDecode
  dsimp only
  split_ifs with hz hlt2 hfit1 <;>
    first
      | omega
      | exact ⟨rfl, rfl, rfl, fun _ => rfl, fun hc => by omega⟩
      | exact ⟨rfl, rfl, rfl, fun hc => by omega, fun _ => rfl⟩

/-- Witness for C3 (corrected) at the concrete length-7 body. -/
theorem poll_malformed_partial_update_witness :
    1 ≤ ([1, 0, 0, 0, 0, 0, 2] : List Nat).length ∧
      ([1, 0, 0, 0, 0, 0, 2] : List Nat).length <
        1 + ([1, 0, 0, 0, 0, 0, 2] : List Nat).getD 0 0 * 5 + 1 +
          ([1, 0, 0, 0, 0, 0, 2] : List Nat).getD
            (1 + ([1, 0, 0, 0, 0, 0, 2] : List Nat).getD 0 0 * 5) 0 * 5 ∧
      (pollBinaryDecode [1, 0, 0, 0, 0, 0, 2] ⟨[⟨5, 1⟩], [⟨9, 4⟩], true⟩).1 =
        PollResult.malformed :=
  ⟨by decide, by decide,
    (poll_malformed_partial_update [1, 0, 0, 0, 0, 0, 2] ⟨[⟨5, 1⟩], [⟨9, 4⟩], true⟩
      (by decide) (by decide)).1⟩

/-- Counterexample to claim C4 as stated: the body `[0, 0]` has length
2 ≥ 1, decodes successfully, and leaves *both* tables empty. -/
theorem poll_ok_both_tables_empty :
    pollBinaryDecode [0, 0] ⟨[⟨5, 1⟩], [⟨9, 4⟩], false⟩ =
        (PollResult.ok, ⟨[], [], true⟩) ∧
      (2 : Nat) ≥ 1 := by
  decide

/-- Claim C4 (corrected): a successful decode of a body of length ≥ 1
yields exactly `P = body[0]` production entries and `C = body[1 + 5P]`
consumption entries; both tables can only be empty when `P = 0` and
`C = 0` (minimal such body: `[0, 0]`). -/
theorem poll_ok_table_sizes (body : List Nat) (st : PollTables)
    (h1 : 1 ≤ body.length)
    (hok : (pollBinaryDecode body st).1 = PollResult.ok) :
    (pollBinaryDecode body st).2.productionCoefficients.length = body.getD 0 0 ∧
      (pollBinaryDecode body st).2.consumptionCoefficients.length =
        body.getD (1 + body.getD 0 0 * 5) 0 ∧
      (¬(body.getD 0 0 = 0 ∧ body.getD (1 + body.getD 0 0 * 5) 0 = 0) →
        ¬((pollBinaryDecode body st).2.productionCoefficients = [] ∧
          (pollBinaryDecode body st).2.consumptionCoefficients = [])) := by
  unfold pollBinaryDecode at hok ⊢
  dsimp only at hok ⊢
  split_ifs at hok ⊢ with hz hlt2 hfit1 hfit2 <;>
    first
      | omega
      | exact PollResult.noConfusion hok
      | exact ⟨parseProdEntries_length body _ _, parseConsEntries_length body _ _, by
          rintro hne ⟨hp, hc⟩
          have hp2 : parseProdEntries body 1 (body.getD 0 0) = [] := hp
          have hc2 : parseConsEntries body (1 + body.getD 0 0 * 5 + 1)
              (body.getD (1 + body.getD 0 0 * 5) 0) = [] := hc
          have lp := parseProdEntries_length body (body.getD 0 0) 1
          have lc := parseConsEntries_length body
            (body.getD (1 + body.getD 0 0 * 5) 0) (1 + body.getD 0 0 * 5 + 1)
          rw [hp2] at lp
          rw [hc2] at lc
          rw [List.length_nil] at lp lc
          exact hne ⟨lp.symm, lc.symm⟩⟩

/-- Witness for C4 (corrected) at the spec's happy-path body S1. -/
theorem poll_ok_table_sizes_witness :
    1 ≤ ([1, 10, 0, 0, 1, 244, 1, 5, 0, 0, 0, 200] : List Nat).length ∧
      (pollBinaryDecode [1, 10, 0, 0, 1, 244, 1, 5, 0, 0, 0, 200]
        ⟨[], [], false⟩).1 = PollResult.ok ∧
      (pollBinaryDecode [1, 10, 0, 0, 1, 244, 1, 5, 0, 0, 0, 200]
        ⟨[], [], false⟩).2.productionCoefficients.length = 1 :=
  ⟨by decide, by decide,
    (poll_ok_table_sizes [1, 10, 0, 0, 1, 244, 1, 5, 0, 0, 0, 200]
      ⟨[], [], false⟩ (by decide) (by decide)).1⟩

/-! ## Round-trip of the poll_binary wire format -/

/-- Length of the encoded production region: five bytes per entry. -/
theorem flatMap_encodeProd_length (es : List ProductionCoefficient) :
    (es.flatMap encodeProdEntry).length = es.length * 5 := by
  induction es with
  | nil => rfl
  | cons e es ih =>
      simp only [List.flatMap_cons, List.length_append, List.length_cons, ih,
        encodeProdEntry, writeBE32, List.length_nil]
      omega

/-- Length of the encoded consumption region: five bytes per entry. -/
theorem flatMap_encodeCons_length (es : List ConsumptionCoefficient) :
    (es.flatMap encodeConsEntry).length = es.length * 5 := by
  induction es with
  | nil => rfl
  | cons e es ih =>
      simp only [List.flatMap_cons, List.length_append, List.length_cons, ih,
        encodeConsEntry, writeBE32, List.length_nil]
      omega

/-- Reading at an offset past a prefix skips the prefix. -/
theorem getD_skip_prefix (pre rest : List Nat) (j : Nat) :
    (pre ++ rest).getD (pre.length + j) 0 = rest.getD j 0 := by
  rw [List.getD_append_right _ _ _ _ (by omega)]
  congr 1
  omega

/-- The byte swap reverses the four base-256 digits of a word given by its
digits. -/
theorem swap_digits (a b c d : Nat) (ha : a < 256) (hb : b < 256)
    (hc : c < 256) (hd : d < 256) :
    hostToNetworkLong (a + 256 * b + 65536 * c + 16777216 * d) =
      d + 256 * c + 65536 * b + 16777216 * a := by
  rw [hostToNetworkLong_eq]
  omega

/-- The byte swap recovers a 32-bit value from its big-endian digits read
back in little-endian order. -/
theorem swap_read_be (x : Nat) (h : x < 2 ^ 32) :
    networkToHostLong (x / 16777216 % 256 + 256 * (x / 65536 % 256) +
      65536 * (x / 256 % 256) + 16777216 * (x % 256)) = x := by
  unfold networkToHostLong
  rw [swap_digits (x / 16777216 % 256) (x / 65536 % 256) (x / 256 % 256) (x % 256)
    (Nat.mod_lt _ (by norm_num)) (Nat.mod_lt _ (by norm_num))
    (Nat.mod_lt _ (by norm_num)) (Nat.mod_lt _ (by norm_num))]
  omega

/-- Casting a signed 32-bit value through its two's-complement word is the
identity on the representable range. -/
theorem toInt32_toUInt32bits (v : Int) (hlo : -(2 ^ 31) ≤ v) (hhi : v < 2 ^ 31) :
    toInt32 (toUInt32bits v) = v := by
  unfold toInt32 toUInt32bits
  split_ifs with h
  · omega
  · omega

/-- The little-endian load at the start of an encoded 32-bit big-endian
field recovers the byte-swapped digits. -/
theorem readLE32_writeBE32 (pre rest : List Nat) (x : Nat) :
    readLE32 (pre ++ (writeBE32 x ++ rest)) pre.length =
      x / 16777216 % 256 + 256 * (x / 65536 % 256) +
        65536 * (x / 256 % 256) + 16777216 * (x % 256) := by
  unfold readLE32 writeBE32
  rw [show pre.length + 1 = pre.length + 1 from rfl]
  rw [show ([x / 16777216 % 256, x / 65536 % 256, x / 256 % 256, x % 256] ++ rest)
      = x / 16777216 % 256 :: (x / 65536 % 256 :: (x / 256 % 256 :: (x % 256 :: rest)))
    from rfl]
  have h0 := getD_skip_prefix pre
    (x / 16777216 % 256 :: (x / 65536 % 256 :: (x / 256 % 256 :: (x % 256 :: rest)))) 0
  have h1 := getD_skip_prefix pre
    (x / 16777216 % 256 :: (x / 65536 % 256 :: (x / 256 % 256 :: (x % 256 :: rest)))) 1
  have h2 := getD_skip_prefix pre
    (x / 16777216 % 256 :: (x / 65536 % 256 :: (x / 256 % 256 :: (x % 256 :: rest)))) 2
  have h3 := getD_skip_prefix pre
    (x / 16777216 % 256 :: (x / 65536 % 256 :: (x / 256 % 256 :: (x % 256 :: rest)))) 3
  rw [Nat.add_zero] at h0
  rw [show pre.length + 1 + 1 = pre.length + 2 by omega,
    show pre.length + 1 + 2 = pre.length + 3 by omega]
  rw [h0, h1, h2, h3]
  simp [List.getD_cons_zero, List.getD_cons_succ]

/-- Parsing the encoded production region after an arbitrary prefix
recovers the original entries. -/
theorem parseProd_encode (es : List ProductionCoefficient) :
    ∀ pre post : List Nat,
      (∀ e ∈ es, e.source_id < 256 ∧
        -(2 ^ 31) ≤ e.coefficient_mw ∧ e.coefficient_mw < 2 ^ 31) →
      parseProdEntries (pre ++ (es.flatMap encodeProdEntry ++ post))
        pre.length es.length = es := by
  induction es with
  | nil => intro pre post _; rfl
  | cons e es ih =>
      intro pre post hv
      obtain ⟨hid, hlo, hhi⟩ := hv e (by simp)
      have hx32 : toUInt32bits e.coefficient_mw < 2 ^ 32 := by
        unfold toUInt32bits; omega
      simp only [List.flatMap_cons, List.length_cons]
      rw [List.append_assoc (encodeProdEntry e)]
      rw [parseProdEntries]
      have hhead : (pre ++ (encodeProdEntry e ++
          (es.flatMap encodeProdEntry ++ post))).getD pre.length 0 = e.source_id := by
        have := getD_skip_prefix pre
          (encodeProdEntry e ++ (es.flatMap encodeProdEntry ++ post)) 0
        rw [Nat.add_zero] at this
        rw [this]
        rfl
      have hval : readLE32 (pre ++ (encodeProdEntry e ++
          (es.flatMap encodeProdEntry ++ post))) (pre.length + 1) =
          toUInt32bits e.coefficient_mw / 16777216 % 256 +
            256 * (toUInt32bits e.coefficient_mw / 65536 % 256) +
            65536 * (toUInt32bits e.coefficient_mw / 256 % 256) +
            16777216 * (toUInt32bits e.coefficient_mw % 256) := by
        have hasc : pre ++ (encodeProdEntry e ++
            (es.flatMap encodeProdEntry ++ post)) =
            (pre ++ [e.source_id]) ++
              (writeBE32 (toUInt32bits e.coefficient_mw) ++
                (es.flatMap encodeProdEntry ++ post)) := by
          simp [encodeProdEntry, List.append_assoc]
        have hlen : pre.length + 1 = (pre ++ [e.source_id]).length := by simp
        rw [hasc, hlen]
        exact readLE32_writeBE32 _ _ _
      rw [hhead, hval, swap_read_be _ hx32, toInt32_toUInt32bits _ hlo hhi]
      have htail : parseProdEntries (pre ++ (encodeProdEntry e ++
          (es.flatMap encodeProdEntry ++ post))) (pre.length + 5) es.length = es := by
        have hasc : pre ++ (encodeProdEntry e ++
            (es.flatMap encodeProdEntry ++ post)) =
            (pre ++ encodeProdEntry e) ++ (es.flatMap encodeProdEntry ++ post) := by
          simp [List.append_assoc]
        have hlen : pre.length + 5 = (pre ++ encodeProdEntry e).length := by
          simp [encodeProdEntry, writeBE32]
        rw [hasc, hlen]
        exact ih (pre ++ encodeProdEntry e) post (fun a ha => hv a (by simp [ha]))
      rw [htail]

/-- Parsing the encoded consumption region after an arbitrary prefix
recovers the original entries. -/
theorem parseCons_encode (es : List ConsumptionCoefficient) :
    ∀ pre post : List Nat,
      (∀ e ∈ es, e.building_id < 256 ∧
        -(2 ^ 31) ≤ e.consumption_mw ∧ e.consumption_mw < 2 ^ 31) →
      parseConsEntries (pre ++ (es.flatMap encodeConsEntry ++ post))
        pre.length es.length = es := by
  induction es with
  | nil => intro pre post _; rfl
  | cons e es ih =>
      intro pre post hv
      obtain ⟨hid, hlo, hhi⟩ := hv e (by simp)
      have hx32 : toUInt32bits e.consumption_mw < 2 ^ 32 := by
        unfold toUInt32bits; omega
      simp only [List.flatMap_cons, List.length_cons]
      rw [List.append_assoc (encodeConsEntry e)]
      rw [parseConsEntries]
      have hhead : (pre ++ (encodeConsEntry e ++
          (es.flatMap encodeConsEntry ++ post))).getD pre.length 0 = e.building_id := by
        have := getD_skip_prefix pre
          (encodeConsEntry e ++ (es.flatMap encodeConsEntry ++ post)) 0
        rw [Nat.add_zero] at this
        rw [this]
        rfl
      have hval : readLE32 (pre ++ (encodeConsEntry e ++
          (es.flatMap encodeConsEntry ++ post))) (pre.length + 1) =
          toUInt32bits e.consumption_mw / 16777216 % 256 +
            256 * (toUInt32bits e.consumption_mw / 65536 % 256) +
            65536 * (toUInt32bits e.consumption_mw / 256 % 256) +
            16777216 * (toUInt32bits e.consumption_mw % 256) := by
        have hasc : pre ++ (encodeConsEntry e ++
            (es.flatMap encodeConsEntry ++ post)) =
            (pre ++ [e.building_id]) ++
              (writeBE32 (toUInt32bits e.consumption_mw) ++
                (es.flatMap encodeConsEntry ++ post)) := by
          simp [encodeConsEntry, List.append_assoc]
        have hlen : pre.length + 1 = (pre ++ [e.building_id]).length := by simp
        rw [hasc, hlen]
        exact readLE32_writeBE32 _ _ _
      rw [hhead, hval, swap_read_be _ hx32, toInt32_toUInt32bits _ hlo hhi]
      have htail : parseConsEntries (pre ++ (encodeConsEntry e ++
          (es.flatMap encodeConsEntry ++ post))) (pre.length + 5) es.length = es := by
        have hasc : pre ++ (encodeConsEntry e ++
            (es.flatMap encodeConsEntry ++ post)) =
            (pre ++ encodeConsEntry e) ++ (es.flatMap encodeConsEntry ++ post) := by
          simp [List.append_assoc]
        have hlen : pre.length + 5 = (pre ++ encodeConsEntry e).length := by
          simp [encodeConsEntry, writeBE32]
        rw [hasc, hlen]
        exact ih (pre ++ encodeConsEntry e) post (fun a ha => hv a (by simp [ha]))
      rw [htail]

/-- Claim C9 (confirmed): encoding coefficient tables with
`P, C ∈ [0, 255]`, byte-sized ids and milliwatt values in signed 32-bit
range into the big-endian `poll_binary` wire format, then decoding with
the client's decoder, recovers the original tables (and a successful,
game-active result). -/
theorem poll_binary_round_trip (prods : List ProductionCoefficient)
    (cons : List ConsumptionCoefficient) (st : PollTables)
    (hP : prods.length ≤ 255) (hC : cons.length ≤ 255)
    (hvp : ∀ e ∈ prods, e.source_id < 256 ∧
      -(2 ^ 31) ≤ e.coefficient_mw ∧ e.coefficient_mw < 2 ^ 31)
    (hvc : ∀ e ∈ cons, e.building_id < 256 ∧
      -(2 ^ 31) ≤ e.consumption_mw ∧ e.consumption_mw < 2 ^ 31) :
    pollBinaryDecode (pollBinaryEncode prods cons) st =
      (PollResult.ok, ⟨prods, cons, true⟩) := by
  have hlen : (pollBinaryEncode prods cons).length =
      1 + prods.length * 5 + 1 + cons.length * 5 := by
    simp only [pollBinaryEncode, List.length_cons, List.length_append,
      flatMap_encodeProd_length, flatMap_encodeCons_length]
    omega
  have hPm : prods.length % 256 = prods.length := Nat.mod_eq_of_lt (by omega)
  have hCm : cons.length % 256 = cons.length := Nat.mod_eq_of_lt (by omega)
  have hP0 : (pollBinaryEncode prods cons).getD 0 0 = prods.length := by
    show prods.length % 256 = prods.length
    exact hPm
  have hC0 : (pollBinaryEncode prods cons).getD (1 + prods.length * 5) 0 =
      cons.length := by
    show (prods.length % 256 :: (prods.flatMap encodeProdEntry ++
      (cons.length % 256 :: cons.flatMap encodeConsEntry))).getD
        (1 + prods.length * 5) 0 = cons.length
    rw [show 1 + prods.length * 5 = prods.length * 5 + 1 by omega,
      List.getD_cons_succ]
    rw [List.getD_append_right _ _ _ _ (by rw [flatMap_encodeProd_length])]
    rw [show prods.length * 5 - (prods.flatMap encodeProdEntry).length = 0 by
      rw [flatMap_encodeProd_length]; omega]
    exact hCm
  have hparse1 : parseProdEntries (pollBinaryEncode prods cons) 1 prods.length =
      prods :=
    parseProd_encode prods [prods.length % 256]
      (cons.length % 256 :: cons.flatMap encodeConsEntry) hvp
  have hparse2 : parseConsEntries (pollBinaryEncode prods cons)
      (1 + prods.length * 5 + 1) cons.length = cons := by
    have hbody2 : pollBinaryEncode prods cons =
        (prods.length % 256 :: (prods.flatMap encodeProdEntry ++
          [cons.length % 256])) ++ (cons.flatMap encodeConsEntry ++ []) := by
      simp [pollBinaryEncode, List.append_assoc]
    have hprelen : (prods.length % 256 :: (prods.flatMap encodeProdEntry ++
        [cons.length % 256])).length = 1 + prods.length * 5 + 1 := by
      simp only [List.length_cons, List.length_append, flatMap_encodeProd_length,
        List.length_nil]
      omega
    rw [hbody2, ← hprelen]
    exact parseCons_encode cons _ [] hvc
  unfold pollBinaryDecode
  dsimp only
  rw [hlen, hP0, hC0]
  split_ifs with h1 h2 h3 h4
  · omega
  · omega
  · omega
  · omega
  · rw [show pollBinaryEncode prods cons =
        prods.length % 256 :: (prods.flatMap encodeProdEntry ++
          (cons.length % 256 :: cons.flatMap encodeConsEntry)) from rfl]
      at hparse1 hparse2 ⊢
    rw [hparse1, hparse2]

/-- Witness for C9 at one-entry tables with a positive and a negative
milliwatt value. -/
theorem poll_binary_round_trip_witness :
    ([⟨10, 500⟩] : List ProductionCoefficient).length ≤ 255 ∧
      ([⟨5, -200⟩] : List ConsumptionCoefficient).length ≤ 255 ∧
      (∀ e ∈ ([⟨10, 500⟩] : List ProductionCoefficient), e.source_id < 256 ∧
        -(2 ^ 31) ≤ e.coefficient_mw ∧ e.coefficient_mw < 2 ^ 31) ∧
      (∀ e ∈ ([⟨5, -200⟩] : List ConsumptionCoefficient), e.building_id < 256 ∧
        -(2 ^ 31) ≤ e.consumption_mw ∧ e.consumption_mw < 2 ^ 31) ∧
      pollBinaryDecode (pollBinaryEncode [⟨10, 500⟩] [⟨5, -200⟩]) ⟨[], [], false⟩ =
        (PollResult.ok, ⟨[⟨10, 500⟩], [⟨5, -200⟩], true⟩) :=
  ⟨by decide, by decide, by decide, by decide,
    poll_binary_round_trip [⟨10, 500⟩] [⟨5, -200⟩] ⟨[], [], false⟩
      (by decide) (by decide) (by decide) (by decide)⟩

/-! ## Layout of the connected-device report bodies -/

/-- Each serialized plant entry occupies 8 bytes. -/
theorem plants_flatMap_length (plants : List ConnectedPowerPlant) :
    (plants.flatMap fun p =>
      storeLE32 (hostToNetworkLong (p.plant_id % 2 ^ 32)) ++
        storeLE32 (hostToNetworkLong (toUInt32bits p.set_power_mw))).length =
      8 * plants.length := by
  induction plants with
  | nil => rfl
  | cons p l ih =>
      simp only [List.flatMap_cons, List.length_append, List.length_cons, ih]
      simp only [storeLE32, List.length_cons, List.length_nil]
      omega

/-- Each serialized consumer entry occupies 4 bytes. -/
theorem consumers_flatMap_length (consumers : List ConnectedConsumer) :
    (consumers.flatMap fun c =>
      storeLE32 (hostToNetworkLong (c.consumer_id % 2 ^ 32))).length =
      4 * consumers.length := by
  induction consumers with
  | nil => rfl
  | cons c l ih =>
      simp only [List.flatMap_cons, List.length_append, List.length_cons, ih]
      simp only [storeLE32, List.length_cons, List.length_nil]
      omega

/-- Claim C10 (confirmed): the `prod_connected` body is `1 + 8N` bytes and
the `cons_connected` body `1 + 4N` bytes for `N` reported entries, with
first byte `N mod 256` in both; hence for `N > 255` the count byte
disagrees with the number of serialized entries. -/
theorem report_body_layout (plants : List ConnectedPowerPlant)
    (consumers : List ConnectedConsumer) :
    (reportConnectedPowerPlantsBody plants).length = 1 + 8 * plants.length ∧
      (reportConnectedPowerPlantsBody plants).getD 0 0 = plants.length % 256 ∧
      (reportConnectedConsumersBody consumers).length =
        1 + 4 * consumers.length ∧
      (reportConnectedConsumersBody consumers).getD 0 0 =
        consumers.length % 256 ∧
      (255 < plants.length →
        (reportConnectedPowerPlantsBody plants).getD 0 0 ≠ plants.length) ∧
      (255 < consumers.length →
        (reportConnectedConsumersBody consumers).getD 0 0 ≠ consumers.length) := by
  refine ⟨?_, rfl, ?_, rfl, ?_, ?_⟩
  · show ((plants.flatMap fun p =>
      storeLE32 (hostToNetworkLong (p.plant_id % 2 ^ 32)) ++
        storeLE32 (hostToNetworkLong (toUInt32bits p.set_power_mw))).length + 1) =
      1 + 8 * plants.length
    rw [plants_flatMap_length]
    omega
  · show ((consumers.flatMap fun c =>
      storeLE32 (hostToNetworkLong (c.consumer_id % 2 ^ 32))).length + 1) =
      1 + 4 * consumers.length
    rw [consumers_flatMap_length]
    omega
  · intro hgt
    show plants.length % 256 ≠ plants.length
    have := Nat.mod_lt plants.length (show 0 < 256 by norm_num)
    omega
  · intro hgt
    show consumers.length % 256 ≠ consumers.length
    have := Nat.mod_lt consumers.length (show 0 < 256 by norm_num)
    omega

set_option maxRecDepth 4000 in
/-- Witness for C10 at 256 plants and 300 consumers: the count bytes wrap
to 0 and 44. -/
theorem report_body_layout_witness :
    255 < (List.replicate 256 (⟨0, 0⟩ : ConnectedPowerPlant)).length ∧
      (reportConnectedPowerPlantsBody
        (List.replicate 256 (⟨0, 0⟩ : ConnectedPowerPlant))).getD 0 0 ≠
        (List.replicate 256 (⟨0, 0⟩ : ConnectedPowerPlant)).length ∧
      255 < (List.replicate 300 (⟨1⟩ : ConnectedConsumer)).length ∧
      (reportConnectedConsumersBody
        (List.replicate 300 (⟨1⟩ : ConnectedConsumer))).getD 0 0 ≠
        (List.replicate 300 (⟨1⟩ : ConnectedConsumer)).length :=
  ⟨by decide,
    (report_body_layout (List.replicate 256 ⟨0, 0⟩)
      (List.replicate 300 ⟨1⟩)).2.2.2.2.1 (by decide),
    by decide,
    (report_body_layout (List.replicate 256 ⟨0, 0⟩)
      (List.replicate 300 ⟨1⟩)).2.2.2.2.2 (by decide)⟩

/-! ## Tick behaviour: reporting bursts, the return value, link loss -/

/-- Counterexample to claim C1 as stated: from `fixtureState` (connected,
idle, game active, all four providers set, report deadline passed), the
burst submits exactly ONE POST — `/coreapi/prod_connected` — not three:
the tick of the deadline submits `REQ_REPORT_PLANTS` and returns, the
completion tick submits nothing (the deadline was already reset), and the
following tick submits nothing and returns `false`. -/
theorem report_burst_counterexample :
    fixtureState.gameActive = true ∧
      fixtureState.powerPlantsCallback.isSome = true ∧
      fixtureState.consumersCallback.isSome = true ∧
      fixtureState.productionCallback.isSome = true ∧
      fixtureState.consumptionCallback.isSome = true ∧
      fixtureState.updateInterval ≤ 100 - fixtureState.lastUpdateTime ∧
      (update fixtureState 100 true NetEvent.netWaiting).2.2 =
        some RequestType.REQ_REPORT_PLANTS ∧
      (update (update fixtureState 100 true NetEvent.netWaiting).1 101 true
          (NetEvent.netResponse 200 [] none)).2.2 = none ∧
      (update (update (update fixtureState 100 true NetEvent.netWaiting).1 101 true
          (NetEvent.netResponse 200 [] none)).1 102 true NetEvent.netWaiting).2.2 =
        none ∧
      (update (update (update fixtureState 100 true NetEvent.netWaiting).1 101 true
          (NetEvent.netResponse 200 [] none)).1 102 true
        NetEvent.netWaiting).1.currentRequestState = RequestState.REQ_IDLE := by
  decide

/-- Claim C1 (corrected): on a tick where the client is connected, no
request is pending, the poll deadline has not passed, the game is active
and the report deadline has passed, `update` starts exactly one request:
`/prod_connected` when the plants provider is set; otherwise
`/cons_connected` when the consumers provider is set; otherwise
`/post_vals` when both power providers are set.  The remaining reports of
the burst are never submitted, because `lastUpdateTime` is reset before
the first submission and only one request can be in flight. -/
theorem report_burst_single_post (st : ApiState) (now : Nat) (ev : NetEvent)
    (hconn : isConnected true st = true)
    (hidle : st.currentRequestState = RequestState.REQ_IDLE)
    (hnotpoll : now - st.lastPollTime < st.pollInterval)
    (hactive : st.gameActive = true)
    (hdue : st.updateInterval ≤ now - st.lastUpdateTime) :
    (st.powerPlantsCallback.isSome = true →
      (update st now true ev).2.2 = some RequestType.REQ_REPORT_PLANTS ∧
        (update st now true ev).2.1 = true ∧
        (update st now true ev).1.currentRequestState =
          RequestState.REQ_PENDING) ∧
      (st.powerPlantsCallback.isSome = false →
        st.consumersCallback.isSome = true →
        (update st now true ev).2.2 = some RequestType.REQ_REPORT_CONSUMERS) ∧
      (st.powerPlantsCallback.isSome = false →
        st.consumersCallback.isSome = false →
        st.productionCallback.isSome = true →
        st.consumptionCallback.isSome = true →
        (update st now true ev).2.2 = some RequestType.REQ_SUBMIT_POWER) := by
  have hlogreg : st.isLoggedIn = true ∧ st.isRegistered = true := by
    unfold isConnected at hconn
    simpa using hconn
  obtain ⟨hlog, hreg⟩ := hlogreg
  have hnp : ¬ st.pollInterval ≤ now - st.lastPollTime := by omega
  refine ⟨fun hp => ?_, fun hp hc => ?_, fun hp hc h1 h2 => ?_⟩ <;>
    simp [update, isConnected, pollPhase, reportPhase, tryReportPlants,
      tryReportConsumers, tryReportPower, reportConnectedPowerPlantsAsync,
      reportConnectedConsumersAsync, submitPowerDataAsync, startHttpRequest,
      startHttpGetRequest, pollCoefficientsAsync, hidle, hlog, hreg, hactive,
      hnp, hdue, hp, *]

/-- Witness for C1 (corrected) at `fixtureState` and `now = 100`. -/
theorem report_burst_single_post_witness :
    isConnected true fixtureState = true ∧
      fixtureState.currentRequestState = RequestState.REQ_IDLE ∧
      (100 : Nat) - fixtureState.lastPollTime < fixtureState.pollInterval ∧
      fixtureState.gameActive = true ∧
      fixtureState.updateInterval ≤ 100 - fixtureState.lastUpdateTime ∧
      (update fixtureState 100 true NetEvent.netWaiting).2.2 =
        some RequestType.REQ_REPORT_PLANTS :=
  ⟨by decide, by decide, by decide, by decide, by decide,
    ((report_burst_single_post fixtureState 100 NetEvent.netWaiting
      (by decide) (by decide) (by decide) (by decide) (by decide)).1
      (by decide)).1⟩

/-- Counterexample to claim C2 as stated: with the poll deadline passed,
the tick that merely STARTS the poll request already returns `true`
although no poll response was decoded on that tick (tables and
`gameActive` are untouched and the request is only now pending), so
`update` does not return `true` exactly once per successful poll decode. -/
theorem tick_edge_counterexample :
    (update pollDueState 100 true NetEvent.netWaiting).2.1 = true ∧
      (update pollDueState 100 true NetEvent.netWaiting).2.2 =
        some RequestType.REQ_POLL_COEFFICIENTS ∧
      (update pollDueState 100 true NetEvent.netWaiting).1.productionCoefficients =
        pollDueState.productionCoefficients ∧
      (update pollDueState 100 true NetEvent.netWaiting).1.consumptionCoefficients =
        pollDueState.consumptionCoefficients ∧
      (update pollDueState 100 true NetEvent.netWaiting).1.gameActive =
        pollDueState.gameActive := by
  decide

/-- Claim C2 (corrected): `update` returns `true` not only on the tick
that observes a successful poll decode — any connected, idle tick whose
poll deadline has passed starts the poll request and already returns
`true`, with both coefficient tables and `gameActive` untouched.  The
one-shot edge semantics (`true` exactly once per successful decode) does
not hold. -/
theorem tick_true_on_poll_start (st : ApiState) (now : Nat) (ev : NetEvent)
    (hconn : isConnected true st = true)
    (hidle : st.currentRequestState = RequestState.REQ_IDLE)
    (hdue : st.pollInterval ≤ now - st.lastPollTime) :
    (update st now true ev).2.1 = true ∧
      (update st now true ev).2.2 = some RequestType.REQ_POLL_COEFFICIENTS ∧
      (update st now true ev).1.productionCoefficients =
        st.productionCoefficients ∧
      (update st now true ev).1.consumptionCoefficients =
        st.consumptionCoefficients ∧
      (update st now true ev).1.gameActive = st.gameActive := by
  have hlogreg : st.isLoggedIn = true ∧ st.isRegistered = true := by
    unfold isConnected at hconn
    simpa using hconn
  obtain ⟨hlog, hreg⟩ := hlogreg
  simp [update, isConnected, pollPhase, pollCoefficientsAsync,
    startHttpGetRequest, hidle, hlog, hreg, hdue]

/-- Witness for C2 (corrected) at the poll-due variant of `fixtureState`. -/
theorem tick_true_on_poll_start_witness :
    isConnected true pollDueState = true ∧
      pollDueState.currentRequestState = RequestState.REQ_IDLE ∧
      pollDueState.pollInterval ≤ 100 - pollDueState.lastPollTime ∧
      (update pollDueState 100 true NetEvent.netWaiting).2.1 = true :=
  ⟨by decide, by decide, by decide,
    (tick_true_on_poll_start pollDueState
      100 NetEvent.netWaiting (by decide) (by decide) (by decide)).1⟩

/-- Counterexample to claim C6 as stated: when the link is down, the
bearer token is NOT discarded — after a disconnected tick the stored
token is still `"tok123"` (non-empty) and the session flags are intact,
so no re-authentication is forced. -/
theorem link_loss_counterexample :
    (update fixtureState 100 false NetEvent.netWaiting).1.token = "tok123" ∧
      ("tok123" : String) ≠ "" ∧
      (update fixtureState 100 false NetEvent.netWaiting).1.isLoggedIn = true ∧
      (update fixtureState 100 false NetEvent.netWaiting).1.isRegistered = true := by
  decide

/-- Claim C6 (corrected): when the Wi-Fi link is down, `update` returns
`false` and leaves the whole client state — credentials, configuration
AND the bearer token — exactly as it was; the token is never discarded,
so the next connected tick resumes with the same session and no
re-authentication. -/
theorem link_loss_retains_all_state (st : ApiState) (now : Nat) (ev : NetEvent) :
    update st now false ev = (st, false, none) := by
  simp [update, isConnected]

/-! ## The session invariant: registered implies logged in -/

/-- Transfer of the invariant along a step that keeps the login and
registration flags and introduces no new `REQ_REGISTER` request. -/
theorem inv_of_session {a b : ApiState}
    (e1 : b.isLoggedIn = a.isLoggedIn) (e2 : b.isRegistered = a.isRegistered)
    (e3 : b.currentRequestType = RequestType.REQ_REGISTER →
      a.currentRequestType = RequestType.REQ_REGISTER)
    (h1 : a.isRegistered = true → a.isLoggedIn = true)
    (h2 : a.currentRequestType = RequestType.REQ_REGISTER → a.isLoggedIn = true) :
    (b.isRegistered = true → b.isLoggedIn = true) ∧
      (b.currentRequestType = RequestType.REQ_REGISTER → b.isLoggedIn = true) :=
  ⟨fun h => by rw [e1]; exact h1 (by rw [← e2]; exact h),
   fun h => by rw [e1]; exact h2 (e3 h)⟩

/-- `processRequest` never touches the login or registration flags and
never introduces a `REQ_REGISTER` request. -/
theorem processRequest_session (st : ApiState) (now : Nat) (ev : NetEvent) :
    (processRequest st now ev).1.isLoggedIn = st.isLoggedIn ∧
      (processRequest st now ev).1.isRegistered = st.isRegistered ∧
      ((processRequest st now ev).1.currentRequestType =
          RequestType.REQ_REGISTER →
        st.currentRequestType = RequestType.REQ_REGISTER) := by
  unfold processRequest abortRequest
  cases ev <;> dsimp only <;> split_ifs <;> simp_all

/-- `abortRequest` never touches the login or registration flags and
clears the request type. -/
theorem abortRequest_session (st : ApiState) :
    (abortRequest st).isLoggedIn = st.isLoggedIn ∧
      (abortRequest st).isRegistered = st.isRegistered ∧
      ((abortRequest st).currentRequestType = RequestType.REQ_REGISTER →
        st.currentRequestType = RequestType.REQ_REGISTER) := by
  unfold abortRequest
  simp

/-- `pollCoefficientsAsync` keeps the session flags and never starts a
`REQ_REGISTER` request. -/
theorem pollCoefficientsAsync_session (st : ApiState) (now : Nat) :
    (pollCoefficientsAsync st now).1.isLoggedIn = st.isLoggedIn ∧
      (pollCoefficientsAsync st now).1.isRegistered = st.isRegistered ∧
      ((pollCoefficientsAsync st now).1.currentRequestType =
          RequestType.REQ_REGISTER →
        st.currentRequestType = RequestType.REQ_REGISTER) := by
  unfold pollCoefficientsAsync startHttpGetRequest
  split_ifs <;> simp_all

/-- `reportConnectedPowerPlantsAsync` keeps the session flags and never
starts a `REQ_REGISTER` request. -/
theorem reportPlantsAsync_session (st : ApiState) (now : Nat) :
    (reportConnectedPowerPlantsAsync st now).1.isLoggedIn = st.isLoggedIn ∧
      (reportConnectedPowerPlantsAsync st now).1.isRegistered = st.isRegistered ∧
      ((reportConnectedPowerPlantsAsync st now).1.currentRequestType =
          RequestType.REQ_REGISTER →
        st.currentRequestType = RequestType.REQ_REGISTER) := by
  unfold reportConnectedPowerPlantsAsync startHttpRequest
  split_ifs <;> simp_all

/-- `reportConnectedConsumersAsync` keeps the session flags and never
starts a `REQ_REGISTER` request. -/
theorem reportConsumersAsync_session (st : ApiState) (now : Nat) :
    (reportConnectedConsumersAsync st now).1.isLoggedIn = st.isLoggedIn ∧
      (reportConnectedConsumersAsync st now).1.isRegistered = st.isRegistered ∧
      ((reportConnectedConsumersAsync st now).1.currentRequestType =
          RequestType.REQ_REGISTER →
        st.currentRequestType = RequestType.REQ_REGISTER) := by
  unfold reportConnectedConsumersAsync startHttpRequest
  split_ifs <;> simp_all

/-- `submitPowerDataAsync` keeps the session flags and never starts a
`REQ_REGISTER` request. -/
theorem submitPowerDataAsync_session (st : ApiState) (now : Nat) :
    (submitPowerDataAsync st now).1.isLoggedIn = st.isLoggedIn ∧
      (submitPowerDataAsync st now).1.isRegistered = st.isRegistered ∧
      ((submitPowerDataAsync st now).1.currentRequestType =
          RequestType.REQ_REGISTER →
        st.currentRequestType = RequestType.REQ_REGISTER) := by
  unfold submitPowerDataAsync startHttpRequest
  split_ifs <;> simp_all

/-- The `post_vals` step of the reporting branch keeps the session flags
and never starts a `REQ_REGISTER` request. -/
theorem tryReportPower_session (st : ApiState) (now : Nat) (rp : Bool) :
    (tryReportPower st now rp).1.isLoggedIn = st.isLoggedIn ∧
      (tryReportPower st now rp).1.isRegistered = st.isRegistered ∧
      ((tryReportPower st now rp).1.currentRequestType =
          RequestType.REQ_REGISTER →
        st.currentRequestType = RequestType.REQ_REGISTER) := by
  unfold tryReportPower
  dsimp only
  obtain ⟨s1, s2, s3⟩ := submitPowerDataAsync_session st now
  split_ifs <;> simp_all

/-- The `cons_connected` step of the reporting branch keeps the session
flags and never starts a `REQ_REGISTER` request. -/
theorem tryReportConsumers_session (st : ApiState) (now : Nat) (rp : Bool) :
    (tryReportConsumers st now rp).1.isLoggedIn = st.isLoggedIn ∧
      (tryReportConsumers st now rp).1.isRegistered = st.isRegistered ∧
      ((tryReportConsumers st now rp).1.currentRequestType =
          RequestType.REQ_REGISTER →
        st.currentRequestType = RequestType.REQ_REGISTER) := by
  unfold tryReportConsumers
  dsimp only
  obtain ⟨c1, c2, c3⟩ := reportConsumersAsync_session st now
  obtain ⟨t1, t2, t3⟩ := tryReportPower_session
    (reportConnectedConsumersAsync st now).1 now rp
  obtain ⟨u1, u2, u3⟩ := tryReportPower_session st now rp
  split_ifs <;> simp_all

/-- The `prod_connected` step of the reporting branch keeps the session
flags and never starts a `REQ_REGISTER` request. -/
theorem tryReportPlants_session (st : ApiState) (now : Nat) (rp : Bool) :
    (tryReportPlants st now rp).1.isLoggedIn = st.isLoggedIn ∧
      (tryReportPlants st now rp).1.isRegistered = st.isRegistered ∧
      ((tryReportPlants st now rp).1.currentRequestType =
          RequestType.REQ_REGISTER →
        st.currentRequestType = RequestType.REQ_REGISTER) := by
  unfold tryReportPlants
  dsimp only
  obtain ⟨c1, c2, c3⟩ := reportPlantsAsync_session st now
  obtain ⟨t1, t2, t3⟩ := tryReportConsumers_session
    (reportConnectedPowerPlantsAsync st now).1 now rp
  obtain ⟨u1, u2, u3⟩ := tryReportConsumers_session st now rp
  split_ifs <;> simp_all

/-- The reporting branch of a tick keeps the session flags and never
starts a `REQ_REGISTER` request. -/
theorem reportPhase_session (st : ApiState) (now : Nat) (rp : Bool) :
    (reportPhase st now rp).1.isLoggedIn = st.isLoggedIn ∧
      (reportPhase st now rp).1.isRegistered = st.isRegistered ∧
      ((reportPhase st now rp).1.currentRequestType =
          RequestType.REQ_REGISTER →
        st.currentRequestType = RequestType.REQ_REGISTER) := by
  unfold reportPhase
  obtain ⟨t1, t2, t3⟩ := tryReportPlants_session
    { st with lastUpdateTime := now } now rp
  split_ifs
  · exact ⟨t1, t2, t3⟩
  · exact ⟨rfl, rfl, fun h => h⟩

/-- The poll / report branch of a tick keeps the session flags and starts
only poll, report or power-submission requests — never a `REQ_REGISTER`. -/
theorem pollPhase_session (st : ApiState) (now : Nat) (rp : Bool) :
    (pollPhase st now rp).1.isLoggedIn = st.isLoggedIn ∧
      (pollPhase st now rp).1.isRegistered = st.isRegistered ∧
      ((pollPhase st now rp).1.currentRequestType = RequestType.REQ_REGISTER →
        st.currentRequestType = RequestType.REQ_REGISTER) := by
  unfold pollPhase
  dsimp only
  obtain ⟨c1, c2, c3⟩ := pollCoefficientsAsync_session
    { st with lastPollTime := now } now
  obtain ⟨t1, t2, t3⟩ := reportPhase_session
    (pollCoefficientsAsync { st with lastPollTime := now } now).1 now rp
  obtain ⟨u1, u2, u3⟩ := reportPhase_session st now rp
  split_ifs
  · exact ⟨c1, c2, c3⟩
  · exact ⟨t1.trans c1, t2.trans c2, fun h => c3 (t3 h)⟩
  · exact ⟨u1, u2, u3⟩

/-- `completeRequest` preserves the invariant: it can set `isLoggedIn`
(login success) or set `isRegistered` (register success — possible only
while the pending request type is `REQ_REGISTER`, which by hypothesis
implies the client was logged in). -/
theorem completeRequest_session (st : ApiState)
    (h1 : st.isRegistered = true → st.isLoggedIn = true)
    (h2 : st.currentRequestType = RequestType.REQ_REGISTER →
      st.isLoggedIn = true) :
    ((completeRequest st).isRegistered = true →
      (completeRequest st).isLoggedIn = true) ∧
      ((completeRequest st).currentRequestType = RequestType.REQ_REGISTER →
        (completeRequest st).isLoggedIn = true) := by
  unfold completeRequest
  dsimp only
  by_cases hguard : st.currentRequestState ≠ RequestState.REQ_COMPLETED
  · simp only [if_pos hguard]
    exact ⟨h1, h2⟩
  · simp only [if_neg hguard]
    cases htok : st.responseLoginToken <;>
      cases ht : st.currentRequestType <;>
      dsimp only <;>
      (try split_ifs) <;>
      simp_all

/-- One tick preserves the session invariant. -/
theorem update_session (st : ApiState) (now : Nat) (wifi : Bool) (ev : NetEvent)
    (h1 : st.isRegistered = true → st.isLoggedIn = true)
    (h2 : st.currentRequestType = RequestType.REQ_REGISTER →
      st.isLoggedIn = true) :
    ((update st now wifi ev).1.isRegistered = true →
      (update st now wifi ev).1.isLoggedIn = true) ∧
      ((update st now wifi ev).1.currentRequestType =
          RequestType.REQ_REGISTER →
        (update st now wifi ev).1.isLoggedIn = true) := by
  unfold update
  dsimp only
  by_cases hc : isConnected wifi st = false
  · simp only [if_pos hc]
    exact ⟨h1, h2⟩
  · simp only [if_neg hc]
    obtain ⟨e1, e2, e3⟩ := processRequest_session st now ev
    have hr1 : (processRequest st now ev).1.isRegistered = true →
        (processRequest st now ev).1.isLoggedIn = true := by
      rw [e1, e2]; exact h1
    have hr2 : (processRequest st now ev).1.currentRequestType =
        RequestType.REQ_REGISTER →
        (processRequest st now ev).1.isLoggedIn = true := by
      rw [e1]; intro ht; exact h2 (e3 ht)
    have hcomp := completeRequest_session (processRequest st now ev).1 hr1 hr2
    obtain ⟨a1, a2, a3⟩ := abortRequest_session (processRequest st now ev).1
    have ha1 : (abortRequest (processRequest st now ev).1).isRegistered = true →
        (abortRequest (processRequest st now ev).1).isLoggedIn = true := by
      rw [a1, a2]; exact hr1
    have ha2 : (abortRequest (processRequest st now ev).1).currentRequestType =
        RequestType.REQ_REGISTER →
        (abortRequest (processRequest st now ev).1).isLoggedIn = true := by
      rw [a1]; intro ht; exact hr2 (a3 ht)
    by_cases hidle : st.currentRequestState ≠ RequestState.REQ_IDLE
    · simp only [if_pos hidle]
      split_ifs <;>
        first
          | exact hcomp
          | exact ⟨hr1, hr2⟩
          | exact ⟨ha1, ha2⟩
          | (obtain ⟨p1, p2, p3⟩ := pollPhase_session
              (completeRequest (processRequest st now ev).1) now true
             exact inv_of_session p1 p2 p3 hcomp.1 hcomp.2)
          | (obtain ⟨p1, p2, p3⟩ := pollPhase_session
              (processRequest st now ev).1 now false
             exact inv_of_session p1 p2 p3 hr1 hr2)
          | (obtain ⟨p1, p2, p3⟩ := pollPhase_session
              (abortRequest (processRequest st now ev).1) now false
             exact inv_of_session p1 p2 p3 ha1 ha2)
    · simp only [if_neg hidle]
      obtain ⟨p1, p2, p3⟩ := pollPhase_session st now false
      exact inv_of_session p1 p2 p3 h1 h2

/-- Every public operation preserves the session invariant. -/
theorem applyOp_session (st : ApiState) (op : ApiOp)
    (h1 : st.isRegistered = true → st.isLoggedIn = true)
    (h2 : st.currentRequestType = RequestType.REQ_REGISTER →
      st.isLoggedIn = true) :
    ((applyOp st op).isRegistered = true → (applyOp st op).isLoggedIn = true) ∧
      ((applyOp st op).currentRequestType = RequestType.REQ_REGISTER →
        (applyOp st op).isLoggedIn = true) := by
  cases op with
  | opUpdate now wifi ev => exact update_session st now wifi ev h1 h2
  | opLogin u p c t =>
      unfold applyOp login
      dsimp only
      by_cases hc2 : c = 200
      · simp only [if_pos hc2]
        cases t with
        | none => exact ⟨h1, h2⟩
        | some tok => exact ⟨fun _ => rfl, fun _ => rfl⟩
      · simp only [if_neg hc2]
        exact ⟨h1, h2⟩
  | opLoginAsync u p now =>
      unfold applyOp loginAsync startHttpRequest
      dsimp only
      by_cases hI : st.currentRequestState ≠ RequestState.REQ_IDLE
      · simp only [if_pos hI]
        exact ⟨h1, h2⟩
      · simp only [if_neg hI]
        have hcond : ¬ (st.isLoggedIn = false ∧
            RequestType.REQ_LOGIN ≠ RequestType.REQ_LOGIN) := by
          rintro ⟨-, hx⟩
          exact hx rfl
        simp only [if_neg hcond]
        exact ⟨h1, fun ht => absurd ht (by decide)⟩
  | opRegister ok body =>
      unfold applyOp registerBoard
      by_cases hL : st.isLoggedIn = false
      · simp only [if_pos hL]
        exact ⟨h1, h2⟩
      · simp only [if_neg hL]
        have hLt : st.isLoggedIn = true := by
          cases hv : st.isLoggedIn
          · exact absurd hv hL
          · rfl
        by_cases hOk : ok = true
        · simp only [if_pos hOk]
          by_cases hlen : 2 ≤ body.length
          · simp only [if_pos hlen]
            by_cases hb : body.getD 0 0 = 1
            · simp only [if_pos hb]
              exact ⟨fun _ => hLt, fun _ => hLt⟩
            · simp only [if_neg hb]
              exact ⟨h1, h2⟩
          · simp only [if_neg hlen]
            exact ⟨h1, h2⟩
        · simp only [if_neg hOk]
          exact ⟨h1, h2⟩
  | opRegisterAsync now =>
      unfold applyOp registerBoardAsync startHttpRequest
      by_cases hL : st.isLoggedIn = false
      · simp only [if_pos hL]
        exact ⟨h1, h2⟩
      · simp only [if_neg hL]
        have hLt : st.isLoggedIn = true := by
          cases hv : st.isLoggedIn
          · exact absurd hv hL
          · rfl
        by_cases hI : st.currentRequestState ≠ RequestState.REQ_IDLE
        · simp only [if_pos hI]
          exact ⟨h1, h2⟩
        · simp only [if_neg hI]
          have hcond : ¬ (st.isLoggedIn = false ∧
              RequestType.REQ_REGISTER ≠ RequestType.REQ_LOGIN) := by
            rintro ⟨hx, -⟩
            rw [hLt] at hx
            cases hx
          simp only [if_neg hcond]
          exact ⟨fun _ => hLt, fun _ => hLt⟩
  | opPoll ok body =>
      unfold applyOp pollCoefficientsSync
      dsimp only
      by_cases hR : st.isRegistered = false
      · simp only [if_pos hR]
        exact ⟨h1, h2⟩
      · simp only [if_neg hR]
        by_cases hL : st.isLoggedIn = false
        · simp only [if_pos hL]
          exact ⟨h1, h2⟩
        · simp only [if_neg hL]
          by_cases hOk : ok = true
          · simp only [if_pos hOk]
            exact ⟨h1, h2⟩
          · simp only [if_neg hOk]
            exact ⟨h1, h2⟩
  | opPollAsync now =>
      obtain ⟨c1, c2, c3⟩ := pollCoefficientsAsync_session st now
      exact inv_of_session c1 c2 c3 h1 h2
  | opReportPlants ok =>
      unfold applyOp reportConnectedPowerPlantsSync
      by_cases hR : st.isRegistered = false
      · simp only [if_pos hR]
        exact ⟨h1, h2⟩
      · simp only [if_neg hR]
        exact ⟨h1, h2⟩
  | opReportConsumers ok =>
      unfold applyOp reportConnectedConsumersSync
      by_cases hR : st.isRegistered = false
      · simp only [if_pos hR]
        exact ⟨h1, h2⟩
      · simp only [if_neg hR]
        exact ⟨h1, h2⟩

/-- The session invariant holds along any run from any state satisfying
it. -/
theorem runOps_session (ops : List ApiOp) : ∀ st : ApiState,
    (st.isRegistered = true → st.isLoggedIn = true) →
    (st.currentRequestType = RequestType.REQ_REGISTER →
      st.isLoggedIn = true) →
    ((ops.foldl applyOp st).isRegistered = true →
      (ops.foldl applyOp st).isLoggedIn = true) ∧
      ((ops.foldl applyOp st).currentRequestType = RequestType.REQ_REGISTER →
        (ops.foldl applyOp st).isLoggedIn = true) := by
  induction ops with
  | nil => intro st hA hB; exact ⟨hA, hB⟩
  | cons op ops ih =>
      intro st hA hB
      have h := applyOp_session st op hA hB
      exact ih (applyOp st op) h.1 h.2

/-- Claim C8 (confirmed): in every state reachable from a freshly
constructed client by any sequence of login, register, poll, report and
tick operations, `isRegistered` implies `isLoggedIn`. -/
theorem registered_implies_loggedIn (ops : List ApiOp)
    (h : (runOps ops).isRegistered = true) : (runOps ops).isLoggedIn = true :=
  (runOps_session ops (mkESPGameAPI 3000 5000 10000)
    (by decide) (by decide)).1 h

/-- Witness for C8: a successful login followed by a successful register
reaches a registered state, which is indeed logged in. -/
theorem registered_implies_loggedIn_witness :
    (runOps [ApiOp.opLogin "u" "p" 200 (some "tok"),
      ApiOp.opRegister true [1, 0]]).isRegistered = true ∧
      (runOps [ApiOp.opLogin "u" "p" 200 (some "tok"),
        ApiOp.opRegister true [1, 0]]).isLoggedIn = true :=
  ⟨by decide,
    registered_implies_loggedIn
      [ApiOp.opLogin "u" "p" 200 (some "tok"), ApiOp.opRegister true [1, 0]]
      (by decide)⟩

/-! ## Exactly-once callbacks in the request engine -/

/-- `fetch` conserves the per-id callback accounting: each submission
either joins the queue or fires the queue-full callback at once. -/
theorem fetch_conserves (s : EngineState) (j : HttpJob) (i : Nat) :
    cbCount (fetch s j).log i + queueCount (fetch s j).queue i =
      cbCount s.log i + queueCount s.queue i +
        (if j.hasCb && j.id == i then 1 else 0) := by
  unfold fetch
  by_cases hq : s.queue.length < ASYNCREQUEST_QUEUE_LEN
  · rw [if_pos hq]
    cases hmatch : (j.hasCb && j.id == i) <;>
      simp [cbCount, queueCount, List.countP_append, List.countP_cons, hmatch] <;>
      omega
  · rw [if_neg hq]
    cases hcb : j.hasCb
    · simp [cbCount, queueCount, hcb]
    · cases hid : (j.id == i) <;>
        simp [cbCount, queueCount, List.countP_append, List.countP_cons,
          cbEventId, hcb, hid] <;>
        omega

/-- One worker iteration conserves the per-id callback accounting: the
dequeued job's callback fires exactly as it leaves the queue. -/
theorem workerStep_conserves (s : EngineState) (i : Nat) :
    cbCount (workerStep s).log i + queueCount (workerStep s).queue i =
      cbCount s.log i + queueCount s.queue i := by
  unfold workerStep
  cases hq : s.queue with
  | nil => simp [hq]
  | cons j rest =>
      cases hcb : j.hasCb <;> cases hid : (j.id == i) <;>
        simp [cbCount, queueCount, List.countP_append, List.countP_cons,
          cbEventId, hcb, hid, hq] <;>
        omega

/-- Running any operation sequence conserves the callback accounting:
callbacks fired plus queued copies equals submissions. -/
theorem runEngine_conserves (ops : List EngineOp) : ∀ (s : EngineState) (i : Nat),
    cbCount (runEngine s ops).log i + queueCount (runEngine s ops).queue i =
      cbCount s.log i + queueCount s.queue i + fetchCbCount ops i := by
  induction ops with
  | nil =>
      intro s i
      simp [runEngine, fetchCbCount]
  | cons op ops ih =>
      intro s i
      have hstep : cbCount (engineStep s op).log i +
          queueCount (engineStep s op).queue i =
          cbCount s.log i + queueCount s.queue i +
            (match op with
              | EngineOp.opFetch j => if j.hasCb && j.id == i then 1 else 0
              | EngineOp.opWork => 0) := by
        cases op with
        | opFetch j => exact fetch_conserves s j i
        | opWork => simpa using workerStep_conserves s i
      have hrun : runEngine s (op :: ops) = runEngine (engineStep s op) ops := rfl
      rw [hrun, ih (engineStep s op) i, hstep]
      cases op with
      | opFetch j =>
          simp only [fetchCbCount, List.countP_cons]
          dsimp only
          ring
      | opWork =>
          simp only [fetchCbCount, List.countP_cons]
          dsimp only
          simp

/-- Draining `n` worker steps from a queue of length `n` empties it. -/
theorem drainN_queue (n : Nat) : ∀ s : EngineState, n = s.queue.length →
    (drainN n s).queue = [] := by
  induction n with
  | zero =>
      intro s h
      exact List.length_eq_zero.mp h.symm
  | succ n ih =>
      intro s h
      apply ih
      cases hq : s.queue with
      | nil => rw [hq] at h; simp at h
      | cons j rest =>
          rw [hq] at h
          simp only [List.length_cons] at h
          unfold workerStep
          rw [hq]
          simpa using h

/-- Worker steps conserve the callback accounting. -/
theorem drainN_conserves (n : Nat) : ∀ (s : EngineState) (i : Nat),
    cbCount (drainN n s).log i + queueCount (drainN n s).queue i =
      cbCount s.log i + queueCount s.queue i := by
  induction n with
  | zero => intro s i; rfl
  | succ n ih =>
      intro s i
      have h1 := ih (workerStep s) i
      have h2 := workerStep_conserves s i
      calc cbCount (drainN (n + 1) s).log i +
            queueCount (drainN (n + 1) s).queue i =
          cbCount (drainN n (workerStep s)).log i +
            queueCount (drainN n (workerStep s)).queue i := rfl
        _ = cbCount (workerStep s).log i + queueCount (workerStep s).queue i := h1
        _ = cbCount s.log i + queueCount s.queue i := h2

/-- After draining, every callback that was still queued has fired. -/
theorem drain_conserves (s : EngineState) (i : Nat) :
    cbCount (drain s).log i = cbCount s.log i + queueCount s.queue i := by
  have h1 := drainN_conserves s.queue.length s i
  have h2 : (drain s).queue = [] := drainN_queue s.queue.length s rfl
  unfold drain at h2 ⊢
  rw [h2] at h1
  simpa [queueCount] using h1

/-- Claim C7 (confirmed): every submission to the request engine receives
exactly one completion callback.  A submission with a callback that is
fetched exactly once obtains exactly one logged callback once the worker
has drained the queue; and a submission against a full queue fires its
callback exactly once, synchronously within `fetch` itself, with the
distinguished queue-full error, without being silently dropped. -/
theorem queue_exactly_one_callback :
    (∀ (ops : List EngineOp) (i : Nat),
      fetchCbCount ops i = 1 →
      cbCount (drain (runEngine engineInit ops)).log i = 1) ∧
      (∀ (s : EngineState) (j : HttpJob), j.hasCb = true →
        ¬ s.queue.length < ASYNCREQUEST_QUEUE_LEN →
        fetch s j = { s with log := s.log ++ [CbEvent.cbQueueFull j.id] }) := by
  constructor
  · intro ops i h
    have hc := runEngine_conserves ops engineInit i
    have hd := drain_conserves (runEngine engineInit ops) i
    rw [h] at hc
    have hzero1 : cbCount engineInit.log i = 0 := rfl
    have hzero2 : queueCount engineInit.queue i = 0 := rfl
    rw [hzero1, hzero2] at hc
    rw [hd]
    omega
  · intro s j hcb hfull
    unfold fetch
    rw [if_neg hfull, if_pos hcb]

/-- Witness for C7: thirteen submissions against the twelve-slot queue;
the overflowing submission (id 12) still receives exactly one callback. -/
theorem queue_exactly_one_callback_witness :
    fetchCbCount ((List.range 13).map
      (fun k => EngineOp.opFetch ⟨k, true⟩)) 12 = 1 ∧
      cbCount (drain (runEngine engineInit ((List.range 13).map
        (fun k => EngineOp.opFetch ⟨k, true⟩)))).log 12 = 1 :=
  ⟨by decide,
    queue_exactly_one_callback.1
      ((List.range 13).map (fun k => EngineOp.opFetch ⟨k, true⟩)) 12 (by decide)⟩
